import Mathlib

/-!
Shallow embedding of the real-time messaging core of a self-hosted chat
service (Node.js/Express/Socket.IO backend over PostgreSQL).

The definitions below are translated from the backend sources:
- `backend/src/services/messageService.js` (saveMessage, addMessageReaction,
  removeMessageReaction, deleteMessage),
- `backend/src/services/chatService.js` (isUserInChat, createDirectChat,
  createGroupChat),
- `backend/src/socket.js` (setupSocketHandlers: the Socket.IO event handlers),
- `backend/db/init.sql` (table shapes and key constraints).

Database state is modelled as in-memory lists of rows; each `query` call of
the source becomes a pure state transition. SQL parameter type errors
(e.g. passing a non-UUID string to a UUID column) are not modelled: the
services validate UUID shape before querying on every path the theorems
touch. Timestamps are `Nat` ticks; `CURRENT_TIMESTAMP` is the caller-supplied
clock value.
-/

namespace VibeChat

abbrev UserId := String
abbrev ChatId := String
abbrev MessageId := String
abbrev SocketId := String

/-- Hex digit test used by the UUID format check (case-insensitive via
`Char.toLower` on the whole string first). -/
def isHexDigit (c : Char) : Bool :=
  (48 ≤ c.toNat && c.toNat ≤ 57) || (97 ≤ c.toNat && c.toNat ≤ 102)

/-- Character admissible at position `i` of a 36-character UUID string:
dashes at 8, 13, 18, 23; version digit 1-5 at 14; variant 8, 9, a, b at 19;
hex digits elsewhere. -/
def uuidCharOk (i : Nat) (c : Char) : Bool :=
  if i = 8 || i = 13 || i = 18 || i = 23 then c = '-'
  else if i = 14 then 49 ≤ c.toNat && c.toNat ≤ 53
  else if i = 19 then c = '8' || c = '9' || c = 'a' || c = 'b'
  else isHexDigit c

/-- The `validate` check of the `uuid` npm package: the nil UUID, or a 36-character
RFC 4122 string with version 1-5 and variant 8/9/a/b, case-insensitive. -/
def isValidUuid (s : String) : Bool :=
  let cs := s.toList.map Char.toLower
  cs = "00000000-0000-0000-0000-000000000000".toList ||
    (cs.length = 36 &&
      ((List.range 36).all fun i => uuidCharOk i (cs.getD i ' ')))

/-- Decidable equality for `Except`, so concrete runs of the fallible
operations can be settled by `decide`. -/
instance {ε α : Type} [DecidableEq ε] [DecidableEq α] :
    DecidableEq (Except ε α) := fun a b =>
  match a, b with
  | .ok x, .ok y =>
      if h : x = y then isTrue (congrArg Except.ok h)
      else isFalse fun hc => h (Except.ok.inj hc)
  | .error x, .error y =>
      if h : x = y then isTrue (congrArg Except.error h)
      else isFalse fun hc => h (Except.error.inj hc)
  | .ok _, .error _ => isFalse fun hc => Except.noConfusion hc
  | .error _, .ok _ => isFalse fun hc => Except.noConfusion hc

/-- Model of `AppError` from `backend/src/middleware/errorHandler.js`: a message and
an HTTP status code. -/
structure AppError where
  message : String
  statusCode : Nat
deriving DecidableEq, Repr

/-- Model of `validateUuid` from messageService.js / chatService.js: rejects a falsy
value (empty string) with 400, then rejects a malformed UUID with 400. -/
def validateUuid (id : String) (fieldName : String) : Except AppError Unit :=
  if id = "" then
    .error ⟨fieldName ++ " is required and must be a string", 400⟩
  else if !isValidUuid id then
    .error ⟨"Invalid " ++ fieldName ++ " format", 400⟩
  else
    .ok ()

/-- A row of `chat_rooms` (init.sql): id, optional name, type
('direct' or 'group'), creator, and the `updated_at` column the message
path touches. -/
structure ChatRoom where
  id : ChatId
  name : Option String
  type : String
  creatorId : UserId
  updatedAt : Nat
deriving DecidableEq, Repr

/-- A row of `chat_participants` (init.sql): primary key
(chat_room_id, user_id), with a role ('creator', 'admin' or 'member'). -/
structure Participant where
  chatRoomId : ChatId
  userId : UserId
  role : String
deriving DecidableEq, Repr

/-- A row of `messages` (init.sql). `media_url` is nullable; `content` is
NOT NULL but may be empty. -/
structure MessageRow where
  id : MessageId
  chatRoomId : ChatId
  senderId : UserId
  content : String
  contentType : String
  mediaUrl : Option String
  createdAt : Nat
  isDeleted : Bool
deriving DecidableEq, Repr

/-- A row of `message_reactions` (init.sql): primary key
(message_id, user_id, reaction). -/
structure ReactionRow where
  messageId : MessageId
  userId : UserId
  reaction : String
deriving DecidableEq, Repr

/-- The database state the messaging core reads and writes. -/
structure DB where
  chatRooms : List ChatRoom
  chatParticipants : List Participant
  messages : List MessageRow
  messageReactions : List ReactionRow
deriving DecidableEq, Repr

/-- Model of `isUserInChat` (chatService.js): SELECT 1 FROM chat_participants WHERE
chat_room_id = $1 AND user_id = $2 — true iff a participant row exists. -/
def isUserInChat (db : DB) (chatId : ChatId) (userId : UserId) : Bool :=
  db.chatParticipants.any fun p => p.chatRoomId = chatId && p.userId = userId

/-- A single SQL statement issued by `saveMessage`. Each statement runs as
its own auto-committed `pool.query` call (messageService.js uses `query`
from utils/db.js directly, not the `transaction` helper), so durability is
per-statement: a crash between two statements keeps the first's effect. -/
inductive DbOp where
  | insertMessage (row : MessageRow)
  | updateRoomTimestamp (chatId : ChatId) (now : Nat)
deriving DecidableEq, Repr

/-- Effect of one auto-committed statement on the database. -/
def applyOp (db : DB) : DbOp → DB
  | .insertMessage row => { db with messages := db.messages ++ [row] }
  | .updateRoomTimestamp chatId now =>
      { db with chatRooms := db.chatRooms.map fun r =>
          if r.id = chatId then { r with updatedAt := now } else r }

/-- Sequential execution of auto-committed statements; a crash after `k`
statements leaves the database at `applyOps db (ops.take k)`. -/
def applyOps (db : DB) (ops : List DbOp) : DB := ops.foldl applyOp db

/-- The message row `saveMessage` inserts: `id` and `created_at` are
server-assigned (SQL defaults `uuid_generate_v4()` / `CURRENT_TIMESTAMP`,
surfaced here as the `newId` / `now` parameters). -/
def newMessageRow (chatId senderId content contentType : String)
    (mediaUrl : Option String) (newId : MessageId) (now : Nat) : MessageRow :=
  ⟨newId, chatId, senderId, content, contentType, mediaUrl, now, false⟩

/-- The two statements `saveMessage` issues on its success path, in order:
the INSERT into `messages`, then the separate UPDATE of
`chat_rooms.updated_at`. -/
def saveMessageOps (chatId senderId content contentType : String)
    (mediaUrl : Option String) (newId : MessageId) (now : Nat) : List DbOp :=
  [ .insertMessage (newMessageRow chatId senderId content contentType mediaUrl newId now),
    .updateRoomTimestamp chatId now ]

/-- Model of `saveMessage` (messageService.js): validate UUID shape of chat and
sender ids, re-check membership via `isUserInChat`, then run the INSERT and
the `updated_at` UPDATE as two separate statements and return the inserted
row (`RETURNING *`). -/
def saveMessage (db : DB) (chatId senderId content contentType : String)
    (mediaUrl : Option String) (newId : MessageId) (now : Nat) :
    Except AppError (MessageRow × DB) :=
  match validateUuid chatId "Chat ID" with
  | .error e => .error e
  | .ok _ =>
    match validateUuid senderId "Sender ID" with
    | .error e => .error e
    | .ok _ =>
      if !isUserInChat db chatId senderId then
        .error ⟨"Not authorized to send message", 403⟩
      else
        .ok (newMessageRow chatId senderId content contentType mediaUrl newId now,
          applyOps db (saveMessageOps chatId senderId content contentType mediaUrl newId now))

/-- Model of `addMessageReaction` (messageService.js): validate UUIDs, look up the
message's chat room (404 if absent), re-check membership (403 if absent),
then INSERT with ON CONFLICT (message_id, user_id, reaction) DO NOTHING
RETURNING * — on conflict no row is inserted and `rows[0]` is undefined,
modelled as `none`. -/
def addMessageReaction (db : DB) (messageId userId reaction : String) :
    Except AppError (Option ReactionRow × DB) :=
  match validateUuid messageId "Message ID" with
  | .error e => .error e
  | .ok _ =>
    match validateUuid userId "User ID" with
    | .error e => .error e
    | .ok _ =>
      match db.messages.find? (fun m => m.id = messageId) with
      | none => .error ⟨"Message not found", 404⟩
      | some m =>
        if !isUserInChat db m.chatRoomId userId then
          .error ⟨"Not authorized to react to message", 403⟩
        else
          let row : ReactionRow := ⟨messageId, userId, reaction⟩
          if db.messageReactions.contains row then
            .ok (none, db)
          else
            .ok (some row, { db with messageReactions := db.messageReactions ++ [row] })

/-- Model of `removeMessageReaction` (messageService.js): validate UUIDs, then
DELETE the matching (message_id, user_id, reaction) rows. No membership,
message-existence or row-existence check is made; deleting nothing is a
successful no-op. -/
def removeMessageReaction (db : DB) (messageId userId reaction : String) :
    Except AppError DB :=
  match validateUuid messageId "Message ID" with
  | .error e => .error e
  | .ok _ =>
    match validateUuid userId "User ID" with
    | .error e => .error e
    | .ok _ =>
      .ok { db with messageReactions := db.messageReactions.filter fun r =>
              !(r.messageId = messageId && r.userId = userId && r.reaction = reaction) }

/-- Participant-row existence for one chat (the join pattern of the
existing-direct-chat lookup in chatService.js). -/
def hasParticipant (db : DB) (chatId : ChatId) (u : UserId) : Bool :=
  db.chatParticipants.any fun p => p.chatRoomId = chatId && p.userId = u

/-- The existing-chat SELECT of `createDirectChat`: a room of type 'direct'
having participant rows for the two users in either order. -/
def existingDirectChat (db : DB) (u1 u2 : UserId) : Option ChatRoom :=
  db.chatRooms.find? fun r => r.type = "direct" &&
    ((hasParticipant db r.id u1 && hasParticipant db r.id u2) ||
     (hasParticipant db r.id u2 && hasParticipant db r.id u1))

/-- Model of `createDirectChat` (chatService.js): validate both user ids, reject a
self-chat with 400, return the existing direct chat if one exists
(idempotent creation), otherwise insert the room (type 'direct', creator =
userId1) and both participant rows with role 'member', inside one
transaction. -/
def createDirectChat (db : DB) (userId1 userId2 : UserId) (newChatId : ChatId)
    (now : Nat) : Except AppError (ChatRoom × DB) :=
  match validateUuid userId1 "User ID 1" with
  | .error e => .error e
  | .ok _ =>
    match validateUuid userId2 "User ID 2" with
    | .error e => .error e
    | .ok _ =>
      if userId1 = userId2 then
        .error ⟨"Cannot create chat with yourself", 400⟩
      else
        match existingDirectChat db userId1 userId2 with
        | some r => .ok (r, db)
        | none =>
          let room : ChatRoom := ⟨newChatId, none, "direct", userId1, now⟩
          .ok (room, { db with
            chatRooms := db.chatRooms ++ [room],
            chatParticipants := db.chatParticipants ++
              [⟨newChatId, userId1, "member"⟩, ⟨newChatId, userId2, "member"⟩] })

/-- The `participantIds.forEach` UUID validation of `createGroupChat`,
with the 1-based index in the field name. -/
def validateParticipantIds : List UserId → Nat → Except AppError Unit
  | [], _ => .ok ()
  | id :: rest, i =>
      match validateUuid id ("Participant ID " ++ toString (i + 1)) with
      | .error e => .error e
      | .ok _ => validateParticipantIds rest (i + 1)

/-- Model of `createGroupChat` (chatService.js): validate the creator and every
participant id, reject more than 299 extra participants (300 including the
creator), then insert the room (type 'group'), the creator with role
'creator', and each participant other than the creator with role 'member',
inside one transaction. -/
def createGroupChat (db : DB) (name : String) (creatorId : UserId)
    (participantIds : List UserId) (newChatId : ChatId) (now : Nat) :
    Except AppError (ChatRoom × DB) :=
  match validateUuid creatorId "Creator ID" with
  | .error e => .error e
  | .ok _ =>
    match validateParticipantIds participantIds 0 with
    | .error e => .error e
    | .ok _ =>
      if participantIds.length > 299 then
        .error ⟨"Group chat cannot have more than 300 participants", 400⟩
      else
        let room : ChatRoom := ⟨newChatId, some name, "group", creatorId, now⟩
        .ok (room, { db with
          chatRooms := db.chatRooms ++ [room],
          chatParticipants := db.chatParticipants ++
            (⟨newChatId, creatorId, "creator"⟩ ::
              (participantIds.filter (· ≠ creatorId)).map
                fun p => ⟨newChatId, p, "member"⟩) })

/-! ## Socket layer (backend/src/socket.js, `setupSocketHandlers`) -/

/-- A live Socket.IO connection: its socket id and the authenticated user
(`socket.user.id`, set by the auth middleware before any event). -/
structure Socket where
  sockId : SocketId
  userId : UserId
deriving DecidableEq, Repr

/-- In-memory server state: the `activeUsers` Map (one socket id per user
key — `Map.set` overwrites), the connected sockets, Socket.IO room
membership, the database, and the server-side supplies for fresh message
ids and the clock (`CURRENT_TIMESTAMP`). -/
structure ServerState where
  activeUsers : List (UserId × SocketId)
  connected : List Socket
  rooms : List (SocketId × String)
  db : DB
  nextId : Nat
  clock : Nat
deriving DecidableEq, Repr

/-- JavaScript `Map.set`: overwrite the value at an existing key, else
append the binding. -/
def mapSet (m : List (UserId × SocketId)) (k : UserId) (v : SocketId) :
    List (UserId × SocketId) :=
  if m.any (fun e => e.1 = k) then
    m.map fun e => if e.1 = k then (k, v) else e
  else m ++ [(k, v)]

/-- JavaScript `Map.delete`: drop the binding at the key, if any. -/
def mapDelete (m : List (UserId × SocketId)) (k : UserId) :
    List (UserId × SocketId) :=
  m.filter fun e => e.1 ≠ k

/-- Model of `socket.join(room)`: idempotent room membership insertion. -/
def joinRoom (rooms : List (SocketId × String)) (sid : SocketId)
    (name : String) : List (SocketId × String) :=
  if rooms.contains (sid, name) then rooms else rooms ++ [(sid, name)]

/-- Model of `socket.leave(room)`: remove the membership, idempotent. -/
def leaveRoom (rooms : List (SocketId × String)) (sid : SocketId)
    (name : String) : List (SocketId × String) :=
  rooms.filter fun e => e ≠ (sid, name)

/-- An emission target: `io.emit` (all connected sockets), `io.to(room)`
(every socket in the room), `socket.to(room)` (the room minus the sender),
or `socket.emit` (the one socket). -/
inductive Target where
  | all
  | room (name : String)
  | roomExcept (name : String) (sender : SocketId)
  | direct (sid : SocketId)
deriving DecidableEq, Repr

/-- The server-to-client events `setupSocketHandlers` emits. -/
inductive ServerEvent where
  | userStatus (userId : UserId) (status : String)
  | messageNew (m : MessageRow)
  | typingStart (userId : UserId) (chatId : ChatId)
  | typingStop (userId : UserId) (chatId : ChatId)
  | messageRead (messageId : MessageId) (userId : UserId) (chatId : ChatId)
  | errorEvent (message : String)
deriving DecidableEq, Repr

/-- One emission: an event sent to a target. -/
structure Emitted where
  target : Target
  event : ServerEvent
deriving DecidableEq, Repr

/-- The inbound occurrences the server reacts to: a client connecting, the
client-to-server events of socket.js, disconnection, and the passage of
time. socket.js registers no timers (no setTimeout/setInterval anywhere in
the backend), so elapsed time is an occurrence with no handler. -/
inductive ClientEvent where
  | connect (s : Socket)
  | chatJoin (s : Socket) (chatId : ChatId)
  | chatLeave (s : Socket) (chatId : ChatId)
  | messageNew (s : Socket) (chatId : ChatId) (content : String)
      (contentType : String) (mediaUrl : Option String)
  | typingStart (s : Socket) (chatId : ChatId)
  | typingStop (s : Socket) (chatId : ChatId)
  | messageRead (s : Socket) (messageId : MessageId) (chatId : ChatId)
  | disconnect (s : Socket)
  | tick (ms : Nat)
deriving DecidableEq, Repr

/-- Model of `markMessageAsRead` (messageService.js): validates the UUIDs; the read
receipt itself is an explicit placeholder ("Implementation for read
receipts would go here"), so on valid input nothing is stored. -/
def markMessageAsRead (messageId userId : String) : Except AppError Unit :=
  match validateUuid messageId "Message ID" with
  | .error e => .error e
  | .ok _ =>
    match validateUuid userId "User ID" with
    | .error e => .error e
    | .ok _ => .ok ()

/-- The event handlers of `setupSocketHandlers` (socket.js), one step:
given the server state and one inbound occurrence, the next state and the
list of emissions, translated handler by handler:
- connection: `activeUsers.set`, join the personal room, `io.emit`
  user:status online;
- chat:join: subscribe only if `isUserInChat`; on failure nothing is
  emitted (the catch only logs);
- chat:leave: unconditional `socket.leave`;
- message:new: membership check (error event to the sender on failure),
  then `saveMessage`; on success broadcast the returned row to the chat
  room via `io.to`; on failure an error event to the sender only;
- typing:start / typing:stop: relay to the chat room minus the sender via
  `socket.to`, with no state kept and no membership check;
- message:read: `markMessageAsRead`, then broadcast the read status; on a
  validation error the catch only logs;
- disconnect: `activeUsers.delete(userId)` and `io.emit` user:status
  offline, whatever other sockets of the same user remain; the transport
  removes the closed socket from its rooms;
- tick: no handler exists for elapsed time, so the state is unchanged but
  for the clock and nothing is emitted. -/
def handle (st : ServerState) : ClientEvent → ServerState × List Emitted
  | .connect s =>
      ({ st with
          activeUsers := mapSet st.activeUsers s.userId s.sockId,
          connected := if st.connected.contains s then st.connected
                       else st.connected ++ [s],
          rooms := joinRoom st.rooms s.sockId ("user:" ++ s.userId) },
       [⟨.all, .userStatus s.userId "online"⟩])
  | .chatJoin s chatId =>
      if isUserInChat st.db chatId s.userId then
        ({ st with rooms := joinRoom st.rooms s.sockId ("chat:" ++ chatId) }, [])
      else (st, [])
  | .chatLeave s chatId =>
      ({ st with rooms := leaveRoom st.rooms s.sockId ("chat:" ++ chatId) }, [])
  | .messageNew s chatId content contentType mediaUrl =>
      if !isUserInChat st.db chatId s.userId then
        (st, [⟨.direct s.sockId, .errorEvent "Not authorized to send message"⟩])
      else
        match saveMessage st.db chatId s.userId content contentType mediaUrl
            ("server-msg-" ++ toString st.nextId) st.clock with
        | .ok (row, db1) =>
            ({ st with db := db1, nextId := st.nextId + 1 },
             [⟨.room ("chat:" ++ chatId), .messageNew row⟩])
        | .error _ =>
            (st, [⟨.direct s.sockId, .errorEvent "Failed to send message"⟩])
  | .typingStart s chatId =>
      (st, [⟨.roomExcept ("chat:" ++ chatId) s.sockId, .typingStart s.userId chatId⟩])
  | .typingStop s chatId =>
      (st, [⟨.roomExcept ("chat:" ++ chatId) s.sockId, .typingStop s.userId chatId⟩])
  | .messageRead s messageId chatId =>
      match markMessageAsRead messageId s.userId with
      | .ok _ => (st, [⟨.room ("chat:" ++ chatId), .messageRead messageId s.userId chatId⟩])
      | .error _ => (st, [])
  | .disconnect s =>
      ({ st with
          activeUsers := mapDelete st.activeUsers s.userId,
          connected := st.connected.filter (fun t => t ≠ s),
          rooms := st.rooms.filter fun e => e.1 ≠ s.sockId },
       [⟨.all, .userStatus s.userId "offline"⟩])
  | .tick ms => ({ st with clock := st.clock + ms }, [])

/-- The sockets a target resolves to, in a given server state: `io.emit`
reaches every connected socket; a room target reaches the connected
sockets in the room; `socket.to` additionally excludes the sender. -/
def recipients (st : ServerState) : Target → List SocketId
  | .all => st.connected.map (·.sockId)
  | .room name =>
      (st.connected.map (·.sockId)).filter fun sid => st.rooms.contains (sid, name)
  | .roomExcept name sender =>
      ((st.connected.map (·.sockId)).filter fun sid =>
        st.rooms.contains (sid, name)).filter fun sid => sid ≠ sender
  | .direct sid => [sid]

/-- Run a list of inbound occurrences from a state, collecting every
emission in order. -/
def runTrace (st : ServerState) : List ClientEvent → ServerState × List Emitted
  | [] => (st, [])
  | ev :: rest =>
      let p := handle st ev
      let q := runTrace p.1 rest
      (q.1, p.2 ++ q.2)

/-! ## Concrete fixtures used by witnesses and counterexamples -/

/-- User id of test user A (a well-formed version-4 UUID). -/
def uA : UserId := "aaaaaaaa-aaaa-4aaa-8aaa-aaaaaaaaaaaa"

/-- User id of test user B. -/
def uB : UserId := "bbbbbbbb-bbbb-4bbb-8bbb-bbbbbbbbbbbb"

/-- User id of test user C. -/
def uC : UserId := "cccccccc-cccc-4ccc-8ccc-cccccccccccc"

/-- Chat id of the direct chat between A and B. -/
def chat1 : ChatId := "11111111-1111-4111-8111-111111111111"

/-- A message id. -/
def msg1 : MessageId := "99999999-9999-4999-8999-999999999999"

/-- A direct chat room between A and B, last updated at time 0. -/
def roomAB : ChatRoom := ⟨chat1, none, "direct", uA, 0⟩

/-- Database with the A-B direct chat and its two participant rows;
C is a member of nothing. -/
def dbAB : DB :=
  ⟨[roomAB], [⟨chat1, uA, "member"⟩, ⟨chat1, uB, "member"⟩], [], []⟩

/-- First socket of user A. -/
def sA1 : Socket := ⟨"sock-1", uA⟩

/-- Second socket of user A (multi-device). -/
def sA2 : Socket := ⟨"sock-2", uA⟩

/-- Socket of user B. -/
def sB : Socket := ⟨"sock-3", uB⟩

/-- Socket of user C, who shares no conversation with anyone. -/
def sC : Socket := ⟨"sock-4", uC⟩

/-- Fresh server state over a database: nobody connected, clock 0. -/
def initState (db : DB) : ServerState := ⟨[], [], [], db, 0, 0⟩

/-- Recogniser for server-emitted typing:stop events. -/
def isTypingStopEvent : ServerEvent → Bool
  | .typingStop _ _ => true
  | _ => false

/-- An empty database. -/
def dbEmpty : DB := ⟨[], [], [], []⟩

/-- A message from A in the A-B chat, created at time 1. -/
def msgRowAB : MessageRow := ⟨msg1, chat1, uA, "hi", "text", none, 1, false⟩

/-- Database with the A-B chat and one stored message from A. -/
def dbMsg : DB :=
  ⟨[roomAB], [⟨chat1, uA, "member"⟩, ⟨chat1, uB, "member"⟩], [msgRowAB], []⟩

/-- Server state with C connected (C shares no conversation with anyone). -/
def stWithC : ServerState := (handle (initState dbAB) (.connect sC)).1

/-- Server state with both of A's sockets connected (multi-device). -/
def stTwoDevices : ServerState :=
  (runTrace (initState dbAB) [.connect sA1, .connect sA2]).1

/-- Trace for the typing-expiry scenario: B connects and subscribes to the
A-B chat, A connects, A starts typing, then five seconds pass with no
typing:stop from A. -/
def typingTrace : List ClientEvent :=
  [.connect sB, .chatJoin sB chat1, .connect sA1,
   .typingStart sA1 chat1, .tick 5000]

/-- The database produced by creating a fresh direct chat between A and B
in an empty database. -/
def dbDirectAB : DB :=
  ⟨[⟨chat1, none, "direct", uA, 3⟩],
   [⟨chat1, uA, "member"⟩, ⟨chat1, uB, "member"⟩], [], []⟩

/-- Chat id of a group chat created by C. -/
def chat2 : ChatId := "22222222-2222-4222-8222-222222222222"

/-- The database produced by C creating the group chat "Team" with A and B
in an empty database. -/
def dbGroupC : DB :=
  ⟨[⟨chat2, some "Team", "group", uC, 4⟩],
   [⟨chat2, uC, "creator"⟩, ⟨chat2, uA, "member"⟩, ⟨chat2, uB, "member"⟩],
   [], []⟩

/-! ## Theorems -/

/-- Shape of every successful `saveMessage` return: the row is the
server-built `newMessageRow` and the database is the result of the two
statements, and the sender was a member. -/
theorem saveMessage_ok_shape
    (db : DB) (chatId senderId content contentType : String)
    (mediaUrl : Option String) (newId : MessageId) (now : Nat)
    (row : MessageRow) (db1 : DB)
    (h : saveMessage db chatId senderId content contentType mediaUrl newId now =
      .ok (row, db1)) :
    row = newMessageRow chatId senderId content contentType mediaUrl newId now ∧
    db1 = applyOps db (saveMessageOps chatId senderId content contentType mediaUrl newId now) ∧
    isUserInChat db chatId senderId = true := by
  unfold saveMessage at h
  cases h1 : validateUuid chatId "Chat ID" with
  | error e => rw [h1] at h; simp at h
  | ok u =>
    rw [h1] at h
    cases h2 : validateUuid senderId "Sender ID" with
    | error e => rw [h2] at h; simp at h
    | ok u2 =>
      rw [h2] at h
      by_cases hm : isUserInChat db chatId senderId
      · simp [hm] at h
        exact ⟨h.1.symm, h.2.symm, hm⟩
      · simp [hm] at h

/-- C3, counterexample: the claim says the message INSERT and the
conversation `updated_at` UPDATE are atomic (either both or neither), but
`saveMessage` issues them as two separate auto-committed statements; if
execution stops after the first statement, the message row for `msg1` is
durable while the A-B chat room's `updated_at` still holds its old value. -/
theorem saveMessage_crash_leaves_insert_without_update :
    ((applyOps dbAB ((saveMessageOps chat1 uA "hi" "text" none msg1 5).take 1)).messages.any
        fun m => m.id = msg1) = true ∧
    ((applyOps dbAB ((saveMessageOps chat1 uA "hi" "text" none msg1 5).take 1)).chatRooms.any
        fun r => r.id = chat1 && r.updatedAt = 5) = false := by decide

/-- C3, amended: `saveMessage` runs the INSERT into `messages` and the
UPDATE of `chat_rooms.updated_at` as two separate auto-committed
statements rather than one transaction. On full success both effects are
present, but stopping after the first statement leaves the message row
inserted with the conversation timestamp untouched. -/
theorem saveMessage_insert_and_update_not_atomic
    (db : DB) (chatId senderId content contentType : String)
    (mediaUrl : Option String) (newId : MessageId) (now : Nat) :
    (∀ row db1,
        saveMessage db chatId senderId content contentType mediaUrl newId now =
          .ok (row, db1) →
        row = newMessageRow chatId senderId content contentType mediaUrl newId now ∧
        db1 = applyOps db (saveMessageOps chatId senderId content contentType mediaUrl newId now)) ∧
    applyOps db ((saveMessageOps chatId senderId content contentType mediaUrl newId now).take 1) =
      { db with messages := db.messages ++
          [newMessageRow chatId senderId content contentType mediaUrl newId now] } ∧
    applyOps db (saveMessageOps chatId senderId content contentType mediaUrl newId now) =
      { db with
          messages := db.messages ++
            [newMessageRow chatId senderId content contentType mediaUrl newId now],
          chatRooms := db.chatRooms.map fun r =>
            if r.id = chatId then { r with updatedAt := now } else r } := by
  refine ⟨?_, rfl, rfl⟩
  intro row db1 h
  have hs := saveMessage_ok_shape db chatId senderId content contentType
    mediaUrl newId now row db1 h
  exact ⟨hs.1, hs.2.1⟩

/-- C3, witness for the amended theorem at a concrete input. -/
theorem saveMessage_insert_and_update_not_atomic_witness :
    (∀ row db1,
        saveMessage dbAB chat1 uA "hi" "text" none msg1 5 = .ok (row, db1) →
        row = newMessageRow chat1 uA "hi" "text" none msg1 5 ∧
        db1 = applyOps dbAB (saveMessageOps chat1 uA "hi" "text" none msg1 5)) ∧
    applyOps dbAB ((saveMessageOps chat1 uA "hi" "text" none msg1 5).take 1) =
      { dbAB with messages := dbAB.messages ++ [newMessageRow chat1 uA "hi" "text" none msg1 5] } ∧
    applyOps dbAB (saveMessageOps chat1 uA "hi" "text" none msg1 5) =
      { dbAB with
          messages := dbAB.messages ++ [newMessageRow chat1 uA "hi" "text" none msg1 5],
          chatRooms := dbAB.chatRooms.map fun r =>
            if r.id = chat1 then { r with updatedAt := 5 } else r } :=
  saveMessage_insert_and_update_not_atomic dbAB chat1 uA "hi" "text" none msg1 5

/-- C4, counterexample: the claim says `saveMessage` fails with a
validation error on empty content for type 'text' or on a missing media
URL for type 'image'; in fact both calls succeed and insert the row. -/
theorem saveMessage_accepts_invalid_content :
    saveMessage dbAB chat1 uA "" "text" none msg1 5 =
      .ok (newMessageRow chat1 uA "" "text" none msg1 5,
           applyOps dbAB (saveMessageOps chat1 uA "" "text" none msg1 5)) ∧
    ((applyOps dbAB (saveMessageOps chat1 uA "" "text" none msg1 5)).messages.contains
        (newMessageRow chat1 uA "" "text" none msg1 5)) = true ∧
    saveMessage dbAB chat1 uA "pic" "image" none msg1 5 =
      .ok (newMessageRow chat1 uA "pic" "image" none msg1 5,
           applyOps dbAB (saveMessageOps chat1 uA "pic" "image" none msg1 5)) := by
  decide

/-- C4, amended: `saveMessage` validates only the UUID shape of the chat
and sender ids and the sender's membership; content, content type and
media URL are unconstrained, so any content (empty text, image without
media URL) is accepted and the message row is created. -/
theorem saveMessage_no_content_validation
    (db : DB) (chatId senderId content contentType : String)
    (mediaUrl : Option String) (newId : MessageId) (now : Nat)
    (h1 : validateUuid chatId "Chat ID" = .ok ())
    (h2 : validateUuid senderId "Sender ID" = .ok ())
    (hmem : isUserInChat db chatId senderId = true) :
    saveMessage db chatId senderId content contentType mediaUrl newId now =
      .ok (newMessageRow chatId senderId content contentType mediaUrl newId now,
           applyOps db (saveMessageOps chatId senderId content contentType mediaUrl newId now)) ∧
    (applyOps db (saveMessageOps chatId senderId content contentType mediaUrl newId now)).messages =
      db.messages ++ [newMessageRow chatId senderId content contentType mediaUrl newId now] := by
  constructor
  · unfold saveMessage
    rw [h1, h2]
    simp [hmem]
  · rfl

/-- C4, witness for the amended theorem: empty text content is accepted. -/
theorem saveMessage_no_content_validation_witness :
    saveMessage dbAB chat1 uA "" "text" none msg1 5 =
      .ok (newMessageRow chat1 uA "" "text" none msg1 5,
           applyOps dbAB (saveMessageOps chat1 uA "" "text" none msg1 5)) ∧
    (applyOps dbAB (saveMessageOps chat1 uA "" "text" none msg1 5)).messages =
      dbAB.messages ++ [newMessageRow chat1 uA "" "text" none msg1 5] :=
  saveMessage_no_content_validation dbAB chat1 uA "" "text" none msg1 5
    (by decide) (by decide) (by decide)

/-- A reaction row matches the (message, user, reaction) triple of a DELETE
exactly when it is that triple. -/
theorem reactionRow_match_iff (a : ReactionRow) (m u r : String) :
    (a.messageId = m && a.userId = u && a.reaction = r) = true ↔
      a = (⟨m, u, r⟩ : ReactionRow) := by
  cases a with
  | mk x y z =>
      simp [Bool.and_eq_true, decide_eq_true_eq, ReactionRow.mk.injEq, and_assoc]

/-- C8: adding the same (message, principal, symbol) reaction twice stores
exactly one row: the first successful call appends the row, and the second
call hits the ON CONFLICT DO NOTHING branch, returning success with no row
(`none`) and leaving the database unchanged. -/
theorem addMessageReaction_idempotent
    (db : DB) (messageId userId reaction : String)
    (hm : validateUuid messageId "Message ID" = .ok ())
    (hu : validateUuid userId "User ID" = .ok ())
    (msg : MessageRow)
    (hfind : db.messages.find? (fun m => m.id = messageId) = some msg)
    (hmem : isUserInChat db msg.chatRoomId userId = true)
    (hfresh : (⟨messageId, userId, reaction⟩ : ReactionRow) ∉ db.messageReactions) :
    addMessageReaction db messageId userId reaction =
      .ok (some ⟨messageId, userId, reaction⟩,
        { db with messageReactions :=
            db.messageReactions ++ [⟨messageId, userId, reaction⟩] }) ∧
    List.count (⟨messageId, userId, reaction⟩ : ReactionRow)
        (db.messageReactions ++ [⟨messageId, userId, reaction⟩]) = 1 ∧
    addMessageReaction
        { db with messageReactions :=
            db.messageReactions ++ [⟨messageId, userId, reaction⟩] }
        messageId userId reaction =
      .ok (none,
        { db with messageReactions :=
            db.messageReactions ++ [⟨messageId, userId, reaction⟩] }) := by
  refine ⟨?_, ?_, ?_⟩
  · unfold addMessageReaction
    rw [hm, hu, hfind]
    simp [hmem, hfresh]
  · rw [List.count_append]
    rw [List.count_eq_zero.mpr hfresh]
    simp
  · unfold addMessageReaction
    rw [hm, hu]
    have hfind1 : ({ db with messageReactions :=
        db.messageReactions ++ [⟨messageId, userId, reaction⟩] } : DB).messages.find?
          (fun m => m.id = messageId) = some msg := hfind
    rw [hfind1]
    have hmem1 : isUserInChat
        { db with messageReactions :=
            db.messageReactions ++ [⟨messageId, userId, reaction⟩] }
        msg.chatRoomId userId = true := hmem
    simp [hmem1]

/-- C8, witness: B reacts "heart" to A's stored message twice; one row is
stored and the second call is a no-op success. -/
theorem addMessageReaction_idempotent_witness :
    addMessageReaction dbMsg msg1 uB "heart" =
      .ok (some ⟨msg1, uB, "heart"⟩,
        { dbMsg with messageReactions :=
            dbMsg.messageReactions ++ [⟨msg1, uB, "heart"⟩] }) ∧
    List.count (⟨msg1, uB, "heart"⟩ : ReactionRow)
        (dbMsg.messageReactions ++ [⟨msg1, uB, "heart"⟩]) = 1 ∧
    addMessageReaction
        { dbMsg with messageReactions :=
            dbMsg.messageReactions ++ [⟨msg1, uB, "heart"⟩] }
        msg1 uB "heart" =
      .ok (none,
        { dbMsg with messageReactions :=
            dbMsg.messageReactions ++ [⟨msg1, uB, "heart"⟩] }) :=
  addMessageReaction_idempotent dbMsg msg1 uB "heart" (by decide) (by decide)
    msgRowAB (by decide) (by decide) (by decide)

/-- C10: `removeMessageReaction` performs no membership, authorization or
existence check: for any UUID-shaped message and user ids it succeeds on
every database state, deleting an absent reaction is a silent no-op, and —
in contrast — `addMessageReaction` fails with 404 on a missing message and
403 on a non-member requester. -/
theorem removeMessageReaction_no_checks
    (db : DB) (messageId userId reaction : String)
    (hm : validateUuid messageId "Message ID" = .ok ())
    (hu : validateUuid userId "User ID" = .ok ()) :
    removeMessageReaction db messageId userId reaction =
      .ok { db with messageReactions := db.messageReactions.filter fun r =>
              !(r.messageId = messageId && r.userId = userId && r.reaction = reaction) } ∧
    ((⟨messageId, userId, reaction⟩ : ReactionRow) ∉ db.messageReactions →
      removeMessageReaction db messageId userId reaction = .ok db) ∧
    (db.messages.find? (fun m => m.id = messageId) = none →
      addMessageReaction db messageId userId reaction =
        .error ⟨"Message not found", 404⟩) ∧
    (∀ msg, db.messages.find? (fun m => m.id = messageId) = some msg →
      isUserInChat db msg.chatRoomId userId = false →
      addMessageReaction db messageId userId reaction =
        .error ⟨"Not authorized to react to message", 403⟩) := by
  refine ⟨?_, ?_, ?_, ?_⟩
  · unfold removeMessageReaction
    rw [hm, hu]
  · intro hnot
    unfold removeMessageReaction
    rw [hm, hu]
    have hself : db.messageReactions.filter (fun r =>
        !(r.messageId = messageId && r.userId = userId && r.reaction = reaction)) =
        db.messageReactions := by
      apply List.filter_eq_self.mpr
      intro a ha
      cases hEq : (a.messageId = messageId && a.userId = userId && a.reaction = reaction) with
      | true =>
          exact absurd
            ((reactionRow_match_iff a messageId userId reaction).mp hEq ▸ ha) hnot
      | false => rfl
    rw [hself]
  · intro hnone
    unfold addMessageReaction
    rw [hm, hu, hnone]
  · intro msg hfind hmem
    unfold addMessageReaction
    rw [hm, hu, hfind]
    simp [hmem]

/-- C10, witness: with no checks, C (a member of nothing) removes a
reaction from A's message; the call succeeds and changes nothing, while
`addMessageReaction` by C on the same message fails with 403. -/
theorem removeMessageReaction_no_checks_witness :
    removeMessageReaction dbMsg msg1 uC "x" =
      .ok { dbMsg with messageReactions := dbMsg.messageReactions.filter fun r =>
              !(r.messageId = msg1 && r.userId = uC && r.reaction = "x") } ∧
    ((⟨msg1, uC, "x"⟩ : ReactionRow) ∉ dbMsg.messageReactions →
      removeMessageReaction dbMsg msg1 uC "x" = .ok dbMsg) ∧
    (dbMsg.messages.find? (fun m => m.id = msg1) = none →
      addMessageReaction dbMsg msg1 uC "x" = .error ⟨"Message not found", 404⟩) ∧
    (∀ msg, dbMsg.messages.find? (fun m => m.id = msg1) = some msg →
      isUserInChat dbMsg msg.chatRoomId uC = false →
      addMessageReaction dbMsg msg1 uC "x" =
        .error ⟨"Not authorized to react to message", 403⟩) :=
  removeMessageReaction_no_checks dbMsg msg1 uC "x" (by decide) (by decide)

/-- C9, counterexample: the claim requires every freshly created
conversation to have at least one member with role creator or admin, but a
fresh direct chat gets exactly two members and both have role 'member'. -/
theorem createDirectChat_has_no_creator_member :
    createDirectChat dbEmpty uA uB chat1 3 =
      .ok (⟨chat1, none, "direct", uA, 3⟩, dbDirectAB) ∧
    (dbDirectAB.chatParticipants.any fun p =>
        p.chatRoomId = chat1 && (p.role = "creator" || p.role = "admin")) = false ∧
    (dbDirectAB.chatParticipants.filter fun p => p.chatRoomId = chat1).map
        (fun p => p.role) = ["member", "member"] := by decide

/-- C9, amended: `createGroupChat` records its creator with role 'creator'
(so a group conversation has at least one creator/admin member), while
`createDirectChat` records both members of a fresh direct conversation
with role 'member' and no creator/admin member at all. -/
theorem creation_role_assignment
    (db : DB) (name : String) (creatorId : UserId) (participantIds : List UserId)
    (u1 u2 : UserId) (newChatId : ChatId) (now : Nat) :
    (∀ room db1,
        createGroupChat db name creatorId participantIds newChatId now =
          .ok (room, db1) →
        (⟨newChatId, creatorId, "creator"⟩ : Participant) ∈ db1.chatParticipants) ∧
    (∀ room db1,
        createDirectChat db u1 u2 newChatId now = .ok (room, db1) →
        existingDirectChat db u1 u2 = none →
        (∀ p ∈ db.chatParticipants, p.chatRoomId ≠ newChatId) →
        (db1.chatParticipants.filter fun p => p.chatRoomId = newChatId) =
          [⟨newChatId, u1, "member"⟩, ⟨newChatId, u2, "member"⟩]) := by
  constructor
  · intro room db1 h
    unfold createGroupChat at h
    cases h1 : validateUuid creatorId "Creator ID" with
    | error e => rw [h1] at h; simp at h
    | ok u =>
      rw [h1] at h
      cases h2 : validateParticipantIds participantIds 0 with
      | error e => rw [h2] at h; simp at h
      | ok u2 =>
        rw [h2] at h
        by_cases hlen : participantIds.length > 299
        · simp [hlen] at h
        · simp [hlen] at h
          rw [← h.2]
          simp
  · intro room db1 h hnone hfresh
    unfold createDirectChat at h
    cases h1 : validateUuid u1 "User ID 1" with
    | error e => rw [h1] at h; simp at h
    | ok u =>
      rw [h1] at h
      cases h2 : validateUuid u2 "User ID 2" with
      | error e => rw [h2] at h; simp at h
      | ok v =>
        rw [h2] at h
        by_cases heq : u1 = u2
        · simp [heq] at h
        · rw [hnone] at h
          simp [heq] at h
          rw [← h.2]
          simp only [List.filter_append]
          rw [List.filter_eq_nil_iff.mpr]
          · simp
          · intro p hp
            simp [hfresh p hp]

/-- C9, witness for the amended theorem: C's fresh group chat stores C
with role 'creator'; the fresh A-B direct chat stores exactly two
'member' rows. -/
theorem creation_role_assignment_witness :
    (⟨chat2, uC, "creator"⟩ : Participant) ∈ dbGroupC.chatParticipants ∧
    (dbDirectAB.chatParticipants.filter fun p => p.chatRoomId = chat1) =
      [⟨chat1, uA, "member"⟩, ⟨chat1, uB, "member"⟩] :=
  ⟨(creation_role_assignment dbEmpty "Team" uC [uA, uB] uA uB chat2 4).1
      ⟨chat2, some "Team", "group", uC, 4⟩ dbGroupC (by decide),
   (creation_role_assignment dbEmpty "Team" uC [uA, uB] uA uB chat1 3).2
      ⟨chat1, none, "direct", uA, 3⟩ dbDirectAB (by decide) (by decide) (by decide)⟩

/-- C1: every message the message:new handler broadcasts is exactly the
persisted row a successful `saveMessage` returned — carrying the
server-assigned id and the server clock as timestamp, never the raw client
payload — and the broadcast goes to the conversation's room. When
persistence fails nothing carries a message event (the sender alone gets
an error event), so a broadcast happens only after a successful return. -/
theorem message_broadcast_is_persisted_row
    (st : ServerState) (s : Socket) (chatId content contentType : String)
    (mediaUrl : Option String) (e : Emitted) (m : MessageRow)
    (he : e ∈ (handle st (.messageNew s chatId content contentType mediaUrl)).2)
    (hm : e.event = .messageNew m) :
    saveMessage st.db chatId s.userId content contentType mediaUrl
        ("server-msg-" ++ toString st.nextId) st.clock =
      .ok (m, (handle st (.messageNew s chatId content contentType mediaUrl)).1.db) ∧
    m.id = "server-msg-" ++ toString st.nextId ∧
    m.createdAt = st.clock ∧
    e.target = .room ("chat:" ++ chatId) := by
  by_cases hmem : isUserInChat st.db chatId s.userId
  · simp only [handle] at he ⊢
    cases hsave : saveMessage st.db chatId s.userId content contentType mediaUrl
        ("server-msg-" ++ toString st.nextId) st.clock with
    | ok p =>
        obtain ⟨row, db1⟩ := p
        obtain ⟨hrow, hdb, hmm⟩ := saveMessage_ok_shape st.db chatId s.userId
          content contentType mediaUrl ("server-msg-" ++ toString st.nextId)
          st.clock row db1 hsave
        rw [hsave] at he
        simp [hmem] at he ⊢
        subst he
        simp at hm
        subst hm
        refine ⟨rfl, ?_, ?_, rfl⟩
        · rw [hrow]; rfl
        · rw [hrow]; rfl
    | error err =>
        rw [hsave] at he
        simp [hmem] at he
        subst he
        simp at hm
  · simp only [handle] at he
    simp [hmem] at he
    subst he
    simp at hm

/-- C1, witness: A sends "hi" in the A-B chat from a fresh server state;
the single broadcast is the persisted row with server id and clock. -/
theorem message_broadcast_is_persisted_row_witness :
    saveMessage (initState dbAB).db chat1 sA1.userId "hi" "text" none
        ("server-msg-" ++ toString (initState dbAB).nextId) (initState dbAB).clock =
      .ok (newMessageRow chat1 uA "hi" "text" none "server-msg-0" 0,
           (handle (initState dbAB) (.messageNew sA1 chat1 "hi" "text" none)).1.db) ∧
    (newMessageRow chat1 uA "hi" "text" none "server-msg-0" 0).id =
      "server-msg-" ++ toString (initState dbAB).nextId ∧
    (newMessageRow chat1 uA "hi" "text" none "server-msg-0" 0).createdAt =
      (initState dbAB).clock ∧
    (⟨.room ("chat:" ++ chat1),
        .messageNew (newMessageRow chat1 uA "hi" "text" none "server-msg-0" 0)⟩ :
      Emitted).target = .room ("chat:" ++ chat1) :=
  message_broadcast_is_persisted_row (initState dbAB) sA1 chat1 "hi" "text" none
    ⟨.room ("chat:" ++ chat1),
     .messageNew (newMessageRow chat1 uA "hi" "text" none "server-msg-0" 0)⟩
    (newMessageRow chat1 uA "hi" "text" none "server-msg-0" 0)
    (by decide) (by decide)

/-- C2, counterexample: the claim says an unauthorized join surfaces a
NotAuthorized error event to the originating connection; in fact C's join
of the A-B chat leaves the state unchanged and emits nothing at all — no
error event reaches anyone. -/
theorem unauthorized_join_emits_no_error :
    handle (initState dbAB) (.chatJoin sC chat1) = (initState dbAB, []) := by
  decide

/-- C2, amended: a join by a non-member is dropped silently: the state is
unchanged, nothing is emitted (no error event either), and the connection
stays outside the conversation's room, so it is not a recipient of any
broadcast to that room. -/
theorem unauthorized_join_silently_dropped
    (st : ServerState) (s : Socket) (c : ChatId)
    (hmem : isUserInChat st.db c s.userId = false) :
    (handle st (.chatJoin s c)).1 = st ∧
    (handle st (.chatJoin s c)).2 = [] ∧
    (st.rooms.contains (s.sockId, "chat:" ++ c) = false →
      s.sockId ∉ recipients (handle st (.chatJoin s c)).1 (.room ("chat:" ++ c))) := by
  have h1 : handle st (.chatJoin s c) = (st, []) := by
    simp [handle, hmem]
  refine ⟨by rw [h1], by rw [h1], ?_⟩
  intro hnot hin
  rw [h1] at hin
  simp [recipients, List.mem_filter] at hin
  simp at hnot
  exact hnot hin.2

/-- C2, witness: C is not a member of the A-B chat; C's join changes
nothing, emits nothing, and C's socket receives no A-B chat broadcasts. -/
theorem unauthorized_join_silently_dropped_witness :
    (handle (initState dbAB) (.chatJoin sC chat1)).1 = initState dbAB ∧
    (handle (initState dbAB) (.chatJoin sC chat1)).2 = [] ∧
    ((initState dbAB).rooms.contains (sC.sockId, "chat:" ++ chat1) = false →
      sC.sockId ∉ recipients (handle (initState dbAB) (.chatJoin sC chat1)).1
        (.room ("chat:" ++ chat1))) :=
  unauthorized_join_silently_dropped (initState dbAB) sC chat1 (by decide)

/-- C5, counterexample: the claim says presence events reach only parties
sharing a conversation with the principal; in fact A's connect emits
user:status via `io.emit`, and C — who shares no conversation with anyone
— is among the recipients. -/
theorem presence_event_reaches_stranger :
    (handle stWithC (.connect sA1)).2 = [⟨.all, .userStatus uA "online"⟩] ∧
    sC.sockId ∈ recipients (handle stWithC (.connect sA1)).1 .all ∧
    (dbAB.chatParticipants.any fun p => p.userId = uC) = false := by decide

/-- C5, amended: every connect emits user:status online and every
disconnect emits user:status offline through `io.emit`, a global
broadcast whose recipients are all connected sockets, with no scoping to
shared conversations (and with no first-connection / last-connection
distinction). -/
theorem presence_broadcast_is_global
    (st : ServerState) (s : Socket) :
    (handle st (.connect s)).2 = [⟨.all, .userStatus s.userId "online"⟩] ∧
    (handle st (.disconnect s)).2 = [⟨.all, .userStatus s.userId "offline"⟩] ∧
    ∀ t ∈ (handle st (.connect s)).1.connected,
      t.sockId ∈ recipients (handle st (.connect s)).1 .all := by
  refine ⟨rfl, rfl, ?_⟩
  intro t ht
  simp only [recipients, List.mem_map]
  exact ⟨t, ht, rfl⟩

/-- C5, witness for the amended theorem at concrete inputs. -/
theorem presence_broadcast_is_global_witness :
    (handle stWithC (.connect sA1)).2 = [⟨.all, .userStatus sA1.userId "online"⟩] ∧
    (handle stWithC (.disconnect sA1)).2 = [⟨.all, .userStatus sA1.userId "offline"⟩] ∧
    ∀ t ∈ (handle stWithC (.connect sA1)).1.connected,
      t.sockId ∈ recipients (handle stWithC (.connect sA1)).1 .all :=
  presence_broadcast_is_global stWithC sA1

/-- C6, counterexample: with both of A's devices connected, disconnecting
the first still emits user:status offline and empties A's activeUsers
entry, although A's second socket remains connected. -/
theorem first_device_disconnect_emits_offline :
    (handle stTwoDevices (.disconnect sA1)).2 = [⟨.all, .userStatus uA "offline"⟩] ∧
    sA2 ∈ (handle stTwoDevices (.disconnect sA1)).1.connected ∧
    sA2.userId = uA ∧
    (handle stTwoDevices (.disconnect sA1)).1.activeUsers = [] := by decide

/-- C6, amended: presence does not reflect the union of live connections:
`activeUsers` holds at most one socket per principal (a later connect
overwrites the binding), and any disconnect unconditionally deletes the
principal's entry and emits a global offline event, even while other
connections of the same principal remain live. -/
theorem disconnect_always_emits_offline
    (st : ServerState) (s : Socket) :
    (handle st (.disconnect s)).2 = [⟨.all, .userStatus s.userId "offline"⟩] ∧
    (handle st (.disconnect s)).1.activeUsers = mapDelete st.activeUsers s.userId ∧
    ∀ v, (s.userId, v) ∈ mapSet st.activeUsers s.userId s.sockId → v = s.sockId := by
  refine ⟨rfl, rfl, ?_⟩
  intro v hv
  unfold mapSet at hv
  by_cases hany : (st.activeUsers.any fun e => e.1 = s.userId) = true
  · rw [if_pos hany] at hv
    rcases List.mem_map.mp hv with ⟨e, he, hfe⟩
    by_cases hk : e.1 = s.userId
    · rw [if_pos hk] at hfe
      injection hfe with h1 h2
      exact h2.symm
    · rw [if_neg hk] at hfe
      exact absurd (by rw [hfe]) hk
  · rw [if_neg hany] at hv
    rcases List.mem_append.mp hv with hmem | hone
    · exact absurd (List.any_eq_true.mpr ⟨(s.userId, v), hmem, by simp⟩) hany
    · exact (Prod.ext_iff.mp (List.mem_singleton.mp hone)).2

/-- C6, witness for the amended theorem at concrete inputs. -/
theorem disconnect_always_emits_offline_witness :
    (handle stTwoDevices (.disconnect sA1)).2 =
      [⟨.all, .userStatus sA1.userId "offline"⟩] ∧
    (handle stTwoDevices (.disconnect sA1)).1.activeUsers =
      mapDelete stTwoDevices.activeUsers sA1.userId ∧
    ∀ v, (sA1.userId, v) ∈ mapSet stTwoDevices.activeUsers sA1.userId sA1.sockId →
      v = sA1.sockId :=
  disconnect_always_emits_offline stTwoDevices sA1

/-- C7, counterexample: B subscribes to the A-B chat, A starts typing, and
five seconds pass with no typing:stop from A; the server emits no
typing:stop at any point of the trace although a typing:start was relayed
and B is a live subscriber of the room. -/
theorem typing_never_auto_stopped :
    ((runTrace (initState dbAB) typingTrace).2.filter
        fun e => isTypingStopEvent e.event) = [] ∧
    ((runTrace (initState dbAB) typingTrace).2.any
        fun e => e.event = .typingStart uA chat1) = true ∧
    sB.sockId ∈ recipients (runTrace (initState dbAB) typingTrace).1
        (.roomExcept ("chat:" ++ chat1) sA1.sockId) := by decide

/-- C7, amended: the server keeps no typing state and no TTL timer: the
passage of time alone advances the clock and emits nothing, and every
typing:stop the server ever emits is the immediate relay of a client
typing:stop event. The automatic stop after a quiet period exists only as
a client-side timer in the frontend, which emits a normal typing:stop. -/
theorem no_server_side_typing_ttl
    (st : ServerState) (ms : Nat) (ev : ClientEvent) :
    (handle st (.tick ms)).2 = [] ∧
    (handle st (.tick ms)).1 = { st with clock := st.clock + ms } ∧
    ∀ e ∈ (handle st ev).2, isTypingStopEvent e.event = true →
      ∃ s c, ev = .typingStop s c ∧
        e = ⟨.roomExcept ("chat:" ++ c) s.sockId, .typingStop s.userId c⟩ := by
  refine ⟨rfl, rfl, ?_⟩
  intro e he htyp
  cases ev with
  | connect s =>
      simp only [handle, List.mem_singleton] at he
      subst he
      simp [isTypingStopEvent] at htyp
  | chatJoin s c =>
      by_cases hmem : isUserInChat st.db c s.userId
      · simp [handle, hmem] at he
      · simp [handle, hmem] at he
  | chatLeave s c =>
      simp [handle] at he
  | messageNew s c content contentType mediaUrl =>
      by_cases hmem : isUserInChat st.db c s.userId
      · simp only [handle] at he
        cases hsave : saveMessage st.db c s.userId content contentType mediaUrl
            ("server-msg-" ++ toString st.nextId) st.clock with
        | ok p =>
            rw [hsave] at he
            simp [hmem] at he
            rw [he] at htyp
            simp [isTypingStopEvent] at htyp
        | error err =>
            rw [hsave] at he
            simp [hmem] at he
            rw [he] at htyp
            simp [isTypingStopEvent] at htyp
      · simp [handle, hmem] at he
        rw [he] at htyp
        simp [isTypingStopEvent] at htyp
  | typingStart s c =>
      simp [handle] at he
      rw [he] at htyp
      simp [isTypingStopEvent] at htyp
  | typingStop s c =>
      simp [handle] at he
      subst he
      exact ⟨s, c, rfl, rfl⟩
  | messageRead s messageId c =>
      cases hmark : markMessageAsRead messageId s.userId with
      | ok u =>
          simp only [handle] at he
          rw [hmark] at he
          simp at he
          rw [he] at htyp
          simp [isTypingStopEvent] at htyp
      | error err =>
          simp only [handle] at he
          rw [hmark] at he
          simp at he
  | disconnect s =>
      simp [handle] at he
      rw [he] at htyp
      simp [isTypingStopEvent] at htyp
  | tick n =>
      simp [handle] at he

/-- C7, witness for the amended theorem: the only typing:stop emission is
the relay of A's explicit typing:stop. -/
theorem no_server_side_typing_ttl_witness :
    (handle (initState dbAB) (.tick 5000)).2 = [] ∧
    (handle (initState dbAB) (.tick 5000)).1 =
      { initState dbAB with clock := (initState dbAB).clock + 5000 } ∧
    ∀ e ∈ (handle (initState dbAB) (.typingStop sA1 chat1)).2,
      isTypingStopEvent e.event = true →
      ∃ s c, (ClientEvent.typingStop sA1 chat1) = .typingStop s c ∧
        e = ⟨.roomExcept ("chat:" ++ c) s.sockId, .typingStop s.userId c⟩ :=
  no_server_side_typing_ttl (initState dbAB) 5000 (.typingStop sA1 chat1)

end VibeChat
